import Mathlib

/-!
Shallow embedding of the insta-scraper pipeline.

The Instagram pipeline (`src/scrapers/instagram.py`) supplies the request
type, response normalization (`_flatten_items`, `_cursor`, `_ts`, `_plays`,
`_i`, `_row`), the predicate filter (`_passes`), the paginator (`_paginate`)
and the orchestrating entry point (`scrape_instagram`).  The TikTok pipeline
(`src/scrapers/tiktok.py`) supplies `Filters`, `_passes_filters`, `normalize`
and the pagination loop of `iter_hashtag_medias` / `fetch_hashtag_medias`.

Python `int` is modelled as `Int`; `None`-able dictionary fields are modelled
as `Option` fields; functions that may raise are modelled in
`Except String`.  The external HikerAPI client is modelled as a record of
fetch functions, so every theorem quantifies over all providers.  Wall-clock
time (`time.time()`) is passed explicitly as the `now` parameter.
-/

namespace InstaScraper

/-- `ScrapeRequest` dataclass of `scrapers/instagram.py`. -/
structure ScrapeRequest where
  method : String
  target : String
  feed : String
  max_posts : Int := 50
  max_requests : Int := 10
  days_ago : Int := 365
  min_plays : Int := 0
  min_likes : Int := 0
  min_comments : Int := 0
  include_unknown_dates : Bool := true
  debug : Bool := false
  deriving Repr, DecidableEq

/-- The fields of a raw provider item that the pipeline ever reads.
`Option` marks a key that may be absent (or hold a non-conforming value,
which the Python `isinstance` checks treat the same as absent). -/
structure RawItem where
  code : Option String := none
  pk : Option Int := none
  username : Option String := none
  taken_at_ts : Option Int := none
  taken_at_timestamp : Option Int := none
  play_count : Option Int := none
  view_count : Option Int := none
  like_count : Option Int := none
  comment_count : Option Int := none
  like_and_view_counts_disabled : Bool := false
  deriving Repr, DecidableEq

/-- One entry of a provider response's `items` list: a dict, a nested list
(whose dict elements get flattened in), or junk of another type. -/
inductive Entry where
  | dict (it : RawItem)
  | sub (xs : List RawItem)
  | junk
  deriving Repr, DecidableEq

/-- A provider page response: a dict carrying `items` plus cursor keys,
a bare list, or a value of any other type. -/
inductive Resp where
  | dict (items : List Entry) (max_id next_max_id end_cursor next_end_cursor : Option String)
  | list (items : List Entry)
  | other
  deriving Repr, DecidableEq

/-- The inner loop of `_flatten_items`: keep dict entries, splice in the
dict elements of nested lists, drop everything else. -/
def flattenEntries : List Entry → List RawItem
  | [] => []
  | .dict it :: rest => it :: flattenEntries rest
  | .sub xs :: rest => xs ++ flattenEntries rest
  | .junk :: rest => flattenEntries rest

/-- `_flatten_items`: normalize a response to a flat list of raw items. -/
def _flatten_items : Resp → List RawItem
  | .dict items _ _ _ _ => flattenEntries items
  | .list items => flattenEntries items
  | .other => []

/-- One step of `_cursor`'s key scan: a present, non-empty string wins,
otherwise fall through to the next key. -/
def pickCursor (v : Option String) (rest : Option String) : Option String :=
  match v with
  | some s => if s ≠ "" then some s else rest
  | none => rest

/-- `_cursor`: first non-empty string among the recognized cursor keys of a
dict response; `none` for any other response shape. -/
def _cursor : Resp → Option String
  | .dict _ a b c d => pickCursor a (pickCursor b (pickCursor c (pickCursor d none)))
  | _ => none

/-- `_ts`: resolve a timestamp.  Python's
`item.get("taken_at_ts") or item.get("taken_at_timestamp")` falls through
when the first value is falsy (absent or zero); the result survives only
when positive. -/
def _ts (item : RawItem) : Option Int :=
  let v : Option Int :=
    match item.taken_at_ts with
    | some x => if x ≠ 0 then some x else item.taken_at_timestamp
    | none => item.taken_at_timestamp
  match v with
  | some x => if x > 0 then some x else none
  | none => none

/-- `_plays`: prefer `play_count` over `view_count`; missing counters are 0. -/
def _plays (item : RawItem) : Int :=
  match item.play_count with
  | some v => v
  | none =>
    match item.view_count with
    | some v => v
    | none => 0

/-- `_i(item, "like_count")`. -/
def _like_count (item : RawItem) : Int :=
  match item.like_count with
  | some v => v
  | none => 0

/-- `_i(item, "comment_count")`. -/
def _comment_count (item : RawItem) : Int :=
  match item.comment_count with
  | some v => v
  | none => 0

/-- `_date_str`: the calendar rendering of `datetime.fromtimestamp` is
abstracted to a decimal rendering; a falsy (`None`/0) timestamp renders as
the literal string `"Unknown"`. -/
def _date_str (ts : Option Int) : String :=
  match ts with
  | some t => if t ≠ 0 then toString t else "Unknown"
  | none => "Unknown"

/-- A canonical content row (the dict built by `_row`). -/
structure Row where
  id : Option Int
  code : String
  url : String
  username : String
  date_ts : Int
  date : String
  plays : Int
  likes : Int
  comments : Int
  engagement : Int
  metrics_disabled : Bool
  source : String
  discovery : String
  deriving Repr, DecidableEq

/-- `_row`: normalize one raw item; `none` when the item lacks a usable
(non-empty string) content identifier. -/
def _row (item : RawItem) (source : String) (discovery : String) : Option Row :=
  match item.code with
  | none => none
  | some code =>
    if code = "" then none
    else
      let username := match item.username with
        | some u => u
        | none => "unknown"
      let ts := _ts item
      let plays := _plays item
      let likes := _like_count item
      let comments := _comment_count item
      some {
        id := item.pk
        code := code
        url := "https://www.instagram.com/p/" ++ code ++ "/"
        username := username
        date_ts := ts.getD 0
        date := _date_str ts
        plays := plays
        likes := likes
        comments := comments
        engagement := plays + likes + comments
        metrics_disabled := item.like_and_view_counts_disabled
        source := source
        discovery := discovery
      }

/-- The three engagement-floor checks of `_passes` (its tail after the
recency check). -/
def _passesFloors (item : RawItem) (req : ScrapeRequest) : Bool :=
  if _plays item < req.min_plays then false
  else if _like_count item < req.min_likes then false
  else if _comment_count item < req.min_comments then false
  else true

/-- `_passes`: the predicate filter (recency check, then the three
engagement floors). -/
def _passes (item : RawItem) (req : ScrapeRequest) (cutoff_ts : Int) : Bool :=
  match _ts item with
  | none =>
    if ¬ req.include_unknown_dates then false
    else _passesFloors item req
  | some ts =>
    if ts < cutoff_ts then false
    else _passesFloors item req

/-- The counters of `_paginate`'s result `meta` dict. -/
structure Meta where
  endpoint : Option String
  cursor : Option String
  fetched : Int
  kept : Int
  requests : Int
  deriving Repr, DecidableEq

/-- The mutable state of `_paginate`'s while loop. -/
structure PgState where
  rows : List Row
  fetched : Int
  kept : Int
  requests : Int
  cursor : Option String
  endpoint : Option String
  deriving Repr, DecidableEq

/-- A fetch adapter: `fetch_fn(cursor) -> (resp, endpoint)`, which may raise. -/
def Fetch : Type := Option String → Except String (Resp × String)

/-- The inner `for it in items` loop of `_paginate`: stop at the kept quota,
filter with `_passes`, normalize with `_row`, silently skip items `_row`
rejects. -/
def _page_keep (req : ScrapeRequest) (cutoff_ts : Int) (source discovery : String) :
    Int → List Row → List RawItem → Int × List Row
  | kept, rows, [] => (kept, rows)
  | kept, rows, it :: rest =>
    if kept ≥ req.max_posts then (kept, rows)
    else if _passes it req cutoff_ts then
      match _row it source discovery with
      | some r => _page_keep req cutoff_ts source discovery (kept + 1) (rows ++ [r]) rest
      | none => _page_keep req cutoff_ts source discovery kept rows rest
    else _page_keep req cutoff_ts source discovery kept rows rest

/-- Python truthiness of the cursor at the loop's exit test (`not cursor`):
`None` or the empty string. -/
def cursorFalsy : Option String → Bool
  | none => true
  | some s => s = ""

/-- One iteration of `_paginate`'s while loop applied to a successfully
fetched page: count the request, flatten and count the items, run the
keep loop, advance the cursor. -/
def _page_step (req : ScrapeRequest) (cutoff_ts : Int) (source discovery : String)
    (st : PgState) (resp : Resp) (ep : String) : PgState :=
  let items := _flatten_items resp
  let kr := _page_keep req cutoff_ts source discovery st.kept st.rows items
  { rows := kr.2
    fetched := st.fetched + (items.length : Int)
    kept := kr.1
    requests := st.requests + 1
    cursor := _cursor resp
    endpoint := some ep }

/-- `_paginate`'s while loop.  `fuel` bounds the recursion; with
`fuel = max_requests.toNat` it is exact, because `requests` grows by one per
iteration and the guard demands `requests < max_requests`. -/
def _paginate_go (fetch_fn : Fetch) (req : ScrapeRequest) (cutoff_ts : Int)
    (source discovery : String) : Nat → PgState → Except String PgState
  | 0, st => .ok st
  | fuel + 1, st =>
    if st.kept < req.max_posts ∧ st.requests < req.max_requests then
      match fetch_fn st.cursor with
      | .error e => .error e
      | .ok (resp, ep) =>
        let st' := _page_step req cutoff_ts source discovery st resp ep
        if cursorFalsy st'.cursor ∨ (_flatten_items resp).isEmpty then .ok st'
        else _paginate_go fetch_fn req cutoff_ts source discovery fuel st'
    else .ok st

/-- The initial state of `_paginate`'s loop. -/
def pgInit : PgState :=
  { rows := [], fetched := 0, kept := 0, requests := 0, cursor := none, endpoint := none }

/-- `_paginate`: drive a fetch adapter across cursors under the dual
kept/requests budget and report the kept rows plus counters. -/
def _paginate (fetch_fn : Fetch) (req : ScrapeRequest) (now : Int)
    (source discovery : String) : Except String (List Row × Meta) :=
  let cutoff_ts := now - req.days_ago * 86400
  match _paginate_go fetch_fn req cutoff_ts source discovery req.max_requests.toNat pgInit with
  | .error e => .error e
  | .ok st =>
    .ok (st.rows,
      { endpoint := st.endpoint, cursor := st.cursor, fetched := st.fetched,
        kept := st.kept, requests := st.requests })

/-- The user record read by `_resolve_user_id` (fields it may look up). -/
structure UserInfo where
  pk : Option Int := none
  id : Option Int := none
  user_id : Option Int := none
  follower_count : Option Int := none
  deriving Repr, DecidableEq

/-- The shape of a `user_by_username_v1` response: a dict (optionally with a
nested `"user"` dict, else the dict itself is used), a list (whose first
element must be a dict), or anything else. -/
inductive UserResp where
  | dict (user : Option UserInfo) (self : UserInfo)
  | list (head : Option UserInfo)
  | other
  deriving Repr, DecidableEq

/-- The profile dict built by `_resolve_user_id`. -/
structure Profile where
  username : String
  follower_count : Option Int
  profile_url : String
  deriving Repr, DecidableEq

/-- The external HikerAPI client, modelled as the record of fetch methods
`scrape_instagram` uses.  Each may raise (transport / status errors). -/
structure Client where
  user_by_username_v1 : String → Except String UserResp
  user_medias_chunk_v1 : String → Option String → Except String Resp
  user_clips_chunk_v1 : String → Option String → Except String Resp
  hashtag_medias_top_chunk_v1 : String → Option String → Except String Resp
  hashtag_medias_top_recent_chunk_v1 : String → Option String → Except String Resp
  hashtag_medias_clips_chunk_v1 : String → Option String → Except String Resp

/-- Python `a or b or c` over the candidate id fields: a present, non-zero
value wins (both `None` and `0` are falsy and fall through). -/
def pickId (v : Option Int) (rest : Option Int) : Option Int :=
  match v with
  | some x => if x ≠ 0 then some x else rest
  | none => rest

/-- `_resolve_user_id`: resolve a username to a user id plus profile dict. -/
def _resolve_user_id (client : Client) (username : String) :
    Except String (String × Profile) :=
  match client.user_by_username_v1 username with
  | .error e => .error e
  | .ok user_info =>
    let user? : Option UserInfo :=
      match user_info with
      | .dict u self => some (u.getD self)
      | .list head => head
      | .other => none
    match user? with
    | none => .error "Unexpected user response"
    | some user =>
      match pickId user.pk (pickId user.id (pickId user.user_id none)) with
      | none => .error "User ID not found"
      | some user_id =>
        .ok (toString user_id,
          { username := username
            follower_count := user.follower_count
            profile_url := "https://www.instagram.com/" ++ username })

/-- The `fetch_user` closure of `scrape_instagram`. -/
def fetch_user (client : Client) (req : ScrapeRequest) (user_id : String) : Fetch :=
  fun cursor =>
    if req.feed = "posts" then
      match client.user_medias_chunk_v1 user_id cursor with
      | .error e => .error e
      | .ok resp => .ok (resp, "user_medias_chunk_v1")
    else
      match client.user_clips_chunk_v1 user_id cursor with
      | .error e => .error e
      | .ok resp => .ok (resp, "user_clips_chunk_v1")

/-- The `feed == "top"` adapter `fetch_hashtag` builds. -/
def topAdapter (client : Client) (target : String) : Fetch := fun c =>
  match client.hashtag_medias_top_chunk_v1 target c with
  | .error e => .error e
  | .ok resp => .ok (resp, "hashtag_medias_top_chunk_v1")

/-- The `feed == "recent"` adapter `fetch_hashtag` builds. -/
def recentAdapter (client : Client) (target : String) : Fetch := fun c =>
  match client.hashtag_medias_top_recent_chunk_v1 target c with
  | .error e => .error e
  | .ok resp => .ok (resp, "hashtag_medias_top_recent_chunk_v1")

/-- The `feed == "clips"` adapter `fetch_hashtag` builds. -/
def clipsAdapter (client : Client) (target : String) : Fetch := fun c =>
  match client.hashtag_medias_clips_chunk_v1 target c with
  | .error e => .error e
  | .ok resp => .ok (resp, "hashtag_medias_clips_chunk_v1")

/-- The `fetch_hashtag` factory of `scrape_instagram`: selecting an unknown
feed raises before any adapter is returned. -/
def fetch_hashtag (client : Client) (target : String) (feed : String) :
    Except String Fetch :=
  if feed = "top" then .ok (topAdapter client target)
  else if feed = "recent" then .ok (recentAdapter client target)
  else if feed = "clips" then .ok (clipsAdapter client target)
  else .error ("Unknown hashtag feed: " ++ feed)

/-- The `meta` dict after `meta.update(...)` at the end of the `try` block. -/
structure FullMeta where
  endpoint : Option String
  cursor : Option String
  fetched : Int
  kept : Int
  requests : Int
  requested : Int
  method : String
  target : String
  effective_feed : String
  fallback_used : Bool
  deriving Repr, DecidableEq

/-- Attach the trailing `meta.update` fields. -/
def mkFullMeta (m : Meta) (req : ScrapeRequest) (effective_feed : String)
    (fallback_used : Bool) : FullMeta :=
  { endpoint := m.endpoint, cursor := m.cursor, fetched := m.fetched,
    kept := m.kept, requests := m.requests, requested := req.max_posts,
    method := req.method, target := req.target,
    effective_feed := effective_feed, fallback_used := fallback_used }

/-- Python `f"{x}"` on an optional string (`None` renders as `"None"`). -/
def fmtOpt : Option String → String
  | some s => s
  | none => "None"

/-- Python `a or b` on optional cursor strings (`None` and `""` are falsy). -/
def pyOrCursor (a b : Option String) : Option String :=
  match a with
  | some s => if s ≠ "" then some s else b
  | none => b

/-- The `req.method == "username"` branch of `scrape_instagram`'s `try`
block: resolve the user id, reject unsupported feeds, then paginate. -/
def scrape_username (client : Client) (req : ScrapeRequest) (now : Int) :
    Except String (Option Profile × List Row × FullMeta) :=
  match _resolve_user_id client req.target with
  | .error e => .error e
  | .ok (user_id, profile_info) =>
    if req.feed ≠ "posts" ∧ req.feed ≠ "clips" then
      .error "Username feed must be Posts or Clips"
    else
      match _paginate (fetch_user client req user_id) req now
          ("user_" ++ req.feed) ("@" ++ req.target) with
      | .error e => .error e
      | .ok (posts, meta) =>
        .ok (some profile_info, posts, mkFullMeta meta req req.feed false)

/-- The merged meta the auto feed's fallback path builds. -/
def mergeMeta (top_meta recent_meta : Meta) (kept : Int) : Meta :=
  { endpoint := some (fmtOpt top_meta.endpoint ++ " + " ++ fmtOpt recent_meta.endpoint)
    cursor := pyOrCursor recent_meta.cursor top_meta.cursor
    fetched := top_meta.fetched + recent_meta.fetched
    kept := kept
    requests := top_meta.requests + recent_meta.requests }

/-- The `req.feed.startswith("auto")` branch: run the top feed; when it
keeps fewer than `max_posts` rows, run the recent feed for the shortfall
and merge. -/
def scrape_hashtag_auto (client : Client) (req : ScrapeRequest) (now : Int) :
    Except String (Option Profile × List Row × FullMeta) :=
  let top_req : ScrapeRequest := { req with feed := "top" }
  match _paginate (topAdapter client req.target) top_req now "hashtag_top"
      ("#" ++ req.target) with
  | .error e => .error e
  | .ok (top_posts, top_meta) =>
    if (top_posts.length : Int) < req.max_posts then
      let remaining := req.max_posts - (top_posts.length : Int)
      let recent_req : ScrapeRequest :=
        { req with feed := "recent", max_posts := remaining }
      match _paginate (recentAdapter client req.target) recent_req now
          "hashtag_recent" ("#" ++ req.target) with
      | .error e => .error e
      | .ok (recent_posts, recent_meta) =>
        let posts := top_posts ++ recent_posts
        .ok (none, posts,
          mkFullMeta (mergeMeta top_meta recent_meta (posts.length : Int))
            req "top+recent" true)
    else
      .ok (none, top_posts, mkFullMeta top_meta req "top" false)

/-- The plain (non-auto) hashtag branch: select the feed's adapter (an
unknown feed raises) and paginate. -/
def scrape_hashtag_plain (client : Client) (req : ScrapeRequest) (now : Int) :
    Except String (Option Profile × List Row × FullMeta) :=
  match fetch_hashtag client req.target req.feed with
  | .error e => .error e
  | .ok fetch_fn =>
    match _paginate fetch_fn req now ("hashtag_" ++ req.feed)
        ("#" ++ req.target) with
    | .error e => .error e
    | .ok (posts, meta) =>
      .ok (none, posts, mkFullMeta meta req req.feed false)

/-- Python `str.startswith`, modelled on character lists (the library
`String.startsWith` does not reduce in the kernel). -/
def startswith (s pre : String) : Bool := pre.data.isPrefixOf s.data

/-- The body of `scrape_instagram`'s `try` block: profile info (only for the
username method), the kept rows, and the updated meta; any raised error
propagates. -/
def scrape_core (client : Client) (req : ScrapeRequest) (now : Int) :
    Except String (Option Profile × List Row × FullMeta) :=
  if req.method = "username" then scrape_username client req now
  else if startswith req.feed "auto" then scrape_hashtag_auto client req now
  else scrape_hashtag_plain client req now

/-- The dict returned by `scrape_instagram` (absent keys are `none`). -/
structure ScrapeResult where
  profile_info : Option Profile
  posts : List Row
  meta : Option FullMeta
  error : Option String
  debug : Option String
  deriving Repr, DecidableEq

/-- The trace `traceback.format_exc()` produces, abstracted to a string
derived from the raised message. -/
def formatTraceback (e : String) : String :=
  "Traceback (most recent call last): " ++ e

/-- `scrape_instagram`: run the `try` body; on any raised error return the
structured error result (empty rows, the message, and a trace only when the
request's debug flag is set). -/
def scrape_instagram (client : Client) (req : ScrapeRequest) (now : Int) :
    ScrapeResult :=
  match scrape_core client req now with
  | .ok (profile_info, posts, meta) =>
    { profile_info := profile_info, posts := posts, meta := some meta,
      error := none, debug := none }
  | .error e =>
    { profile_info := none, posts := [], meta := none, error := some e,
      debug := if req.debug then some (formatTraceback e) else none }

end InstaScraper

namespace Tiktok

/-- `Filters` dataclass of `scrapers/tiktok.py`. -/
structure Filters where
  last_days : Int
  min_views : Int
  min_likes : Int
  min_comments : Int
  deriving Repr, DecidableEq

/-- The `stats` sub-dict of a TikTok raw item. -/
structure TStats where
  playCount : Option Int := none
  diggCount : Option Int := none
  commentCount : Option Int := none
  deriving Repr, DecidableEq

/-- The `authorStats` sub-dict. -/
structure TAuthorStats where
  followerCount : Option Int := none
  deriving Repr, DecidableEq

/-- The fields of a TikTok raw item that the pipeline reads. -/
structure TItem where
  id : Option String := none
  createTime : Option Int := none
  stats : Option TStats := none
  author_uniqueId : Option String := none
  authorStats : Option TAuthorStats := none
  poi_name : Option String := none
  deriving Repr, DecidableEq

/-- `MediaRow` dataclass. -/
structure MediaRow where
  hashtag : String
  post_id : Option String
  video_url : Option String
  play_count : Int
  like_count : Int
  comment_count : Int
  create_time : Int
  username : Option String
  follower_count : Int
  profile_url : Option String
  region : Option String
  deriving Repr, DecidableEq

/-- A `/hashtag/medias` page: `itemList`, `hasMore` and `cursor` fields
(absent fields default to empty / false / `None` via `dict.get`). -/
structure TPage where
  itemList : List TItem := []
  hasMore : Bool := false
  cursor : Option Int := none
  deriving Repr, DecidableEq

/-- `_passes_filters`: recency on `createTime` (absent defaults to 0), then
the three engagement floors on defaulted stats counters. -/
def _passes_filters (item : TItem) (cutoff_ts : Int) (f : Filters) : Bool :=
  if item.createTime.getD 0 < cutoff_ts then false
  else
    let stats := item.stats.getD {}
    if stats.playCount.getD 0 < f.min_views then false
    else if stats.diggCount.getD 0 < f.min_likes then false
    else if stats.commentCount.getD 0 < f.min_comments then false
    else true

/-- `normalize`: build a `MediaRow` from a raw TikTok item. -/
def normalize (item : TItem) (hashtag : String) : MediaRow :=
  let stats := item.stats.getD {}
  let author_stats := item.authorStats.getD {}
  let username := item.author_uniqueId
  let video_id := item.id
  { hashtag := hashtag
    post_id := video_id
    video_url :=
      match username, video_id with
      | some u, some v =>
        if u ≠ "" ∧ v ≠ "" then
          some ("https://www.tiktok.com/@" ++ u ++ "/video/" ++ v)
        else none
      | _, _ => none
    play_count := stats.playCount.getD 0
    like_count := stats.diggCount.getD 0
    comment_count := stats.commentCount.getD 0
    create_time := item.createTime.getD 0
    username := username
    follower_count := author_stats.followerCount.getD 0
    profile_url :=
      match username with
      | some u => if u ≠ "" then some ("https://www.tiktok.com/@" ++ u) else none
      | none => none
    region := item.poi_name }

/-- The accumulator state of `fetch_hashtag_medias`'s consumption of
`iter_hashtag_medias`. -/
structure TikState where
  results : List MediaRow
  fetched : Int
  collected : Int
  cursor : Option Int
  deriving Repr, DecidableEq

/-- Consume the items one page of `iter_hashtag_medias` yields, as
`fetch_hashtag_medias`'s `for` body does: count each yielded item, filter,
normalize, and `break` (second component `true`) once `limit` results are
collected — abandoning both the page remainder and the generator. -/
def consume_page (hashtag : String) (cutoff_ts : Int) (f : Filters) (limit : Int) :
    TikState → List TItem → TikState × Bool
  | st, [] => (st, false)
  | st, item :: rest =>
    let st1 := { st with fetched := st.fetched + 1, collected := st.collected + 1 }
    if ¬ _passes_filters item cutoff_ts f then
      consume_page hashtag cutoff_ts f limit st1 rest
    else
      let st2 := { st1 with results := st1.results ++ [normalize item hashtag] }
      if (st2.results.length : Int) ≥ limit then (st2, true)
      else consume_page hashtag cutoff_ts f limit st2 rest

/-- The combined paging loop of `iter_hashtag_medias` driven by
`fetch_hashtag_medias`: fetch a page, yield and consume its items, stop when
the consumer broke or `hasMore` is falsy, else advance `cursor` and repeat.
`none` means the fuel ran out with the loop still running, so
`∀ fuel, … = none` expresses non-termination of the Python loop. -/
def tiktok_go (get : Option Int → Except String TPage) (hashtag : String)
    (cutoff_ts : Int) (f : Filters) (limit : Int) :
    Nat → TikState → Option (Except String TikState)
  | 0, _ => none
  | fuel + 1, st =>
    match get st.cursor with
    | .error e => some (.error e)
    | .ok page =>
      let cs := consume_page hashtag cutoff_ts f limit st page.itemList
      if cs.2 then some (.ok cs.1)
      else if ¬ page.hasMore then some (.ok cs.1)
      else tiktok_go get hashtag cutoff_ts f limit fuel { cs.1 with cursor := page.cursor }

/-- `fetch_hashtag_medias` terminates on a given provider exactly when some
finite fuel suffices for its loop to deliver a result. -/
def tiktok_terminates (get : Option Int → Except String TPage) (hashtag : String)
    (cutoff_ts : Int) (f : Filters) (limit : Int) : Prop :=
  ∃ fuel, (tiktok_go get hashtag cutoff_ts f limit fuel
    { results := [], fetched := 0, collected := 0, cursor := none }).isSome

/-- A provider that keeps answering empty pages with `hasMore` set and a
live cursor. -/
def stubbornProvider : Option Int → Except String TPage :=
  fun _ => .ok { itemList := [], hasMore := true, cursor := some 1 }

/-- Fully permissive TikTok filters (all floors zero). -/
def permissiveFilters : Filters :=
  { last_days := 365, min_views := 0, min_likes := 0, min_comments := 0 }

/-- A raw TikTok item with no `createTime` and no stats (all counters
resolve to zero). -/
def undatedTItem : TItem := { id := some "v1" }

end Tiktok

namespace InstaScraper

/-! ### Concrete fixtures used by witnesses and counterexamples. -/

/-- An empty dict page with no cursor key. -/
def emptyPage : Resp := .dict [] none none none none

/-- A dict user-lookup response resolving to user id 7. -/
def okUser : UserResp := .dict none { pk := some 7 }

/-- A client whose every page fetch returns `r` and whose user lookup
resolves to user id 7. -/
def constClient (r : Except String Resp) : Client :=
  { user_by_username_v1 := fun _ => .ok okUser
    user_medias_chunk_v1 := fun _ _ => r
    user_clips_chunk_v1 := fun _ _ => r
    hashtag_medias_top_chunk_v1 := fun _ _ => r
    hashtag_medias_top_recent_chunk_v1 := fun _ _ => r
    hashtag_medias_clips_chunk_v1 := fun _ _ => r }

/-- A dict page of plain dict items with an optional `max_id` cursor. -/
def pageOf (items : List RawItem) (cursor : Option String) : Resp :=
  .dict (items.map Entry.dict) cursor none none none

/-- A well-formed raw item (dated, code `"abc"`, small counters). -/
def goodItem : RawItem :=
  { code := some "abc", pk := some 11, username := some "alice",
    taken_at_ts := some 1000, play_count := some 7, like_count := some 5,
    comment_count := some 2 }

/-- A raw item lacking a usable content identifier. -/
def badCodeItem : RawItem :=
  { code := none, taken_at_ts := some 1000, like_count := some 3 }

/-- A valid auto-feed request with a budget of one page fetch. -/
def autoReq : ScrapeRequest :=
  { method := "hashtag", target := "dog", feed := "auto_(top_to_recent)",
    max_posts := 5, max_requests := 1 }

/-- A plain top-feed request whose kept-row quota is zero. -/
def zeroQuotaReq : ScrapeRequest :=
  { method := "hashtag", target := "dog", feed := "top",
    max_posts := 0, max_requests := 10 }

/-- A plain top-feed request with room for plenty of rows. -/
def topReq : ScrapeRequest :=
  { method := "hashtag", target := "dog", feed := "top",
    max_posts := 5, max_requests := 2 }

/-- `topReq` with a raised likes floor (a tightened request). -/
def topReqTight : ScrapeRequest := { topReq with min_likes := 10 }

/-- An auto-feed request the top feed alone can satisfy. -/
def autoSmallReq : ScrapeRequest :=
  { method := "hashtag", target := "dog", feed := "auto_(top_to_recent)",
    max_posts := 1, max_requests := 2 }

/-- The meta `autoReq` yields against the always-empty client. -/
def autoMetaEx : FullMeta :=
  { endpoint := some "hashtag_medias_top_chunk_v1 + hashtag_medias_top_recent_chunk_v1",
    cursor := none, fetched := 0, kept := 0, requests := 2, requested := 5,
    method := "hashtag", target := "dog", effective_feed := "top+recent",
    fallback_used := true }

/-- The per-pass meta an empty page yields (one request, nothing kept). -/
def emptyPassMeta (ep : String) : Meta :=
  { endpoint := some ep, cursor := none, fetched := 0, kept := 0, requests := 1 }

/-- The row `_row` builds from `goodItem` in the top hashtag feed of `#dog`. -/
def goodRowTop : Row :=
  { id := some 11, code := "abc", url := "https://www.instagram.com/p/abc/",
    username := "alice", date_ts := 1000, date := "1000", plays := 7,
    likes := 5, comments := 2, engagement := 14, metrics_disabled := false,
    source := "hashtag_top", discovery := "#dog" }

/-- The per-pass meta of one page holding exactly `goodItem` (all kept). -/
def onePassMeta : Meta :=
  { endpoint := some "hashtag_medias_top_chunk_v1", cursor := none,
    fetched := 1, kept := 1, requests := 1 }

/-- The meta `topReq` yields against one page of `goodItem` and
`badCodeItem`. -/
def topMetaEx : FullMeta :=
  { endpoint := some "hashtag_medias_top_chunk_v1", cursor := none,
    fetched := 2, kept := 1, requests := 1, requested := 5,
    method := "hashtag", target := "dog", effective_feed := "top",
    fallback_used := false }

end InstaScraper

/-! ## Helper lemmas -/

namespace InstaScraper

/-- The keep loop never pushes `kept` past the quota. -/
theorem page_keep_kept_le (req : ScrapeRequest) (c : Int) (s d : String) :
    ∀ (items : List RawItem) (kept : Int) (rows : List Row),
      kept ≤ req.max_posts →
      (_page_keep req c s d kept rows items).1 ≤ req.max_posts := by
  intro items
  induction items with
  | nil => intro kept rows h; simpa [_page_keep] using h
  | cons it rest ih =>
    intro kept rows h
    by_cases hk : kept ≥ req.max_posts
    · simp [_page_keep, hk]
      omega
    · by_cases hp : _passes it req c
      · cases hr : _row it s d with
        | some r =>
          simp only [_page_keep, if_neg hk, if_pos hp, hr]
          exact ih (kept + 1) (rows ++ [r]) (by omega)
        | none =>
          simp only [_page_keep, if_neg hk, if_pos hp, hr]
          exact ih kept rows h
      · simp only [_page_keep, if_neg hk, if_neg hp]
        exact ih kept rows h

/-- The keep loop keeps `kept` in step with the row list's length. -/
theorem page_keep_kept_len (req : ScrapeRequest) (c : Int) (s d : String) :
    ∀ (items : List RawItem) (kept : Int) (rows : List Row),
      kept = (rows.length : Int) →
      (_page_keep req c s d kept rows items).1 =
        (((_page_keep req c s d kept rows items).2.length : Int)) := by
  intro items
  induction items with
  | nil => intro kept rows h; simpa [_page_keep] using h
  | cons it rest ih =>
    intro kept rows h
    by_cases hk : kept ≥ req.max_posts
    · simpa [_page_keep, hk] using h
    · by_cases hp : _passes it req c
      · cases hr : _row it s d with
        | some r =>
          simp only [_page_keep, if_neg hk, if_pos hp, hr]
          refine ih (kept + 1) (rows ++ [r]) ?_
          simp [h]
        | none =>
          simp only [_page_keep, if_neg hk, if_pos hp, hr]
          exact ih kept rows h
      · simp only [_page_keep, if_neg hk, if_neg hp]
        exact ih kept rows h

/-- Invariants of `_paginate`'s while loop: the request budget and kept
quota are respected, and `kept` tracks the row list's length. -/
theorem paginate_go_inv (fetch : Fetch) (req : ScrapeRequest) (c : Int)
    (s d : String) :
    ∀ (fuel : Nat) (st st' : PgState),
      _paginate_go fetch req c s d fuel st = .ok st' →
      (st.requests ≤ req.max_requests → st'.requests ≤ req.max_requests) ∧
      (st.kept ≤ req.max_posts → st'.kept ≤ req.max_posts) ∧
      (st.kept = (st.rows.length : Int) → st'.kept = (st'.rows.length : Int)) := by
  intro fuel
  induction fuel with
  | zero =>
    intro st st' h
    simp only [_paginate_go] at h
    cases h
    exact ⟨id, id, id⟩
  | succ n ih =>
    intro st st' h
    simp only [_paginate_go] at h
    split at h
    · split at h
      · cases h
      · rename_i hg pr resp ep heq
        have step_inv : ∀ (r : Resp) (e : String),
            (st.requests ≤ req.max_requests →
              (_page_step req c s d st r e).requests ≤ req.max_requests) ∧
            (st.kept ≤ req.max_posts →
              (_page_step req c s d st r e).kept ≤ req.max_posts) ∧
            (st.kept = (st.rows.length : Int) →
              (_page_step req c s d st r e).kept =
                (((_page_step req c s d st r e).rows.length : Int))) := by
          intro r e
          refine ⟨?_, ?_, ?_⟩
          · intro _
            have : (_page_step req c s d st r e).requests = st.requests + 1 := rfl
            omega
          · intro hk
            exact page_keep_kept_le req c s d _ _ _ hk
          · intro hk
            exact page_keep_kept_len req c s d _ _ _ hk
        split at h
        · cases h
          exact step_inv resp ep
        · have tail := ih _ st' h
          exact ⟨fun hr => tail.1 ((step_inv resp ep).1 hr),
                 fun hk => tail.2.1 ((step_inv resp ep).2.1 hk),
                 fun hk => tail.2.2 ((step_inv resp ep).2.2 hk)⟩
    · cases h
      exact ⟨id, id, id⟩

/-- `_paginate`'s contract on success: `kept` equals the number of returned
rows, and the kept quota and request budget (when non-negative) hold. -/
theorem paginate_ok_inv (fetch : Fetch) (req : ScrapeRequest) (now : Int)
    (s d : String) (posts : List Row) (m : Meta)
    (h : _paginate fetch req now s d = .ok (posts, m)) :
    m.kept = (posts.length : Int) ∧
    (0 ≤ req.max_posts → (posts.length : Int) ≤ req.max_posts) ∧
    (0 ≤ req.max_requests → m.requests ≤ req.max_requests) := by
  simp only [_paginate] at h
  cases hgo : _paginate_go fetch req (now - req.days_ago * 86400) s d
      req.max_requests.toNat pgInit with
  | error e => simp only [hgo] at h; cases h
  | ok st =>
    simp only [hgo] at h
    have inv := paginate_go_inv fetch req (now - req.days_ago * 86400) s d
      req.max_requests.toNat pgInit st hgo
    cases h
    refine ⟨?_, ?_, ?_⟩
    · exact inv.2.2 (by simp [pgInit])
    · intro h0
      have := inv.2.1 (by simpa [pgInit] using h0)
      have hlen := inv.2.2 (by simp [pgInit])
      simp only [hlen] at this ⊢
      exact this
    · intro h0
      exact inv.1 (by simpa [pgInit] using h0)

/-- With a non-positive kept quota or request budget the paginator issues
no fetch at all and returns the empty result. -/
theorem paginate_zero_quota (fetch : Fetch) (req : ScrapeRequest) (now : Int)
    (s d : String) (hq : req.max_posts ≤ 0 ∨ req.max_requests ≤ 0) :
    _paginate fetch req now s d =
      .ok ([], { endpoint := none, cursor := none, fetched := 0, kept := 0,
                 requests := 0 }) := by
  have hgo : _paginate_go fetch req (now - req.days_ago * 86400) s d
      req.max_requests.toNat pgInit = .ok pgInit := by
    cases hfuel : req.max_requests.toNat with
    | zero => simp [_paginate_go]
    | succ n =>
      have hmp : req.max_posts ≤ 0 := by
        rcases hq with h | h
        · exact h
        · omega
      simp only [_paginate_go]
      rw [if_neg]
      intro hg
      have : pgInit.kept = 0 := rfl
      omega
  simp only [_paginate]
  rw [hgo]
  rfl

/-- Invariants of the username branch on success. -/
theorem scrape_username_inv (client : Client) (req : ScrapeRequest) (now : Int)
    (p : Option Profile) (posts : List Row) (m : FullMeta)
    (h : scrape_username client req now = .ok (p, posts, m)) :
    m.kept = (posts.length : Int) ∧
    (0 ≤ req.max_posts → (posts.length : Int) ≤ req.max_posts) ∧
    (0 ≤ req.max_requests → m.requests ≤ req.max_requests) ∧
    m.fallback_used = false := by
  unfold scrape_username at h
  split at h
  · cases h
  · split at h
    · cases h
    · split at h
      · cases h
      · rename_i hp
        cases h
        have inv := paginate_ok_inv _ req now _ _ _ _ hp
        exact ⟨inv.1, inv.2.1, inv.2.2, rfl⟩

/-- Invariants of the plain hashtag branch on success. -/
theorem scrape_hashtag_plain_inv (client : Client) (req : ScrapeRequest)
    (now : Int) (p : Option Profile) (posts : List Row) (m : FullMeta)
    (h : scrape_hashtag_plain client req now = .ok (p, posts, m)) :
    m.kept = (posts.length : Int) ∧
    (0 ≤ req.max_posts → (posts.length : Int) ≤ req.max_posts) ∧
    (0 ≤ req.max_requests → m.requests ≤ req.max_requests) ∧
    m.fallback_used = false := by
  unfold scrape_hashtag_plain at h
  split at h
  · cases h
  · split at h
    · cases h
    · rename_i hp
      cases h
      have inv := paginate_ok_inv _ req now _ _ _ _ hp
      exact ⟨inv.1, inv.2.1, inv.2.2, rfl⟩

/-- Invariants of the auto-feed branch on success: `kept` matches the rows,
the kept quota holds, each pass respects the request budget, and the summed
total is at most twice the budget. -/
theorem scrape_hashtag_auto_inv (client : Client) (req : ScrapeRequest)
    (now : Int) (p : Option Profile) (posts : List Row) (m : FullMeta)
    (h : scrape_hashtag_auto client req now = .ok (p, posts, m)) :
    m.kept = (posts.length : Int) ∧
    (0 ≤ req.max_posts → (posts.length : Int) ≤ req.max_posts) ∧
    (0 ≤ req.max_requests →
      (m.fallback_used = false → m.requests ≤ req.max_requests) ∧
      m.requests ≤ 2 * req.max_requests) := by
  simp only [scrape_hashtag_auto] at h
  split at h
  · cases h
  · rename_i pr top_posts top_meta htop
    have tinv := paginate_ok_inv _ { req with feed := "top" } now _ _ _ _ htop
    split at h
    · rename_i hlt
      split at h
      · cases h
      · rename_i pr2 recent_posts recent_meta hrec
        have rinv := paginate_ok_inv _
          { req with feed := "recent",
                     max_posts := req.max_posts - (top_posts.length : Int) }
          now _ _ _ _ hrec
        cases h
        refine ⟨rfl, ?_, ?_⟩
        · intro h0
          have h1 : (top_posts.length : Int) ≤ req.max_posts := tinv.2.1 h0
          have h2 : (recent_posts.length : Int) ≤
              req.max_posts - (top_posts.length : Int) :=
            rinv.2.1 (show (0 : Int) ≤ req.max_posts - (top_posts.length : Int) by omega)
          simp only [List.length_append]
          push_cast
          omega
        · intro h0
          have h1 : top_meta.requests ≤ req.max_requests := tinv.2.2 h0
          have h2 : recent_meta.requests ≤ req.max_requests := rinv.2.2 h0
          constructor
          · intro hfb
            simp [mkFullMeta] at hfb
          · show top_meta.requests + recent_meta.requests ≤ 2 * req.max_requests
            omega
    · cases h
      refine ⟨tinv.1, tinv.2.1, ?_⟩
      intro h0
      have h1 : top_meta.requests ≤ req.max_requests := tinv.2.2 h0
      refine ⟨fun _ => h1, ?_⟩
      show top_meta.requests ≤ 2 * req.max_requests
      omega

/-- Invariants of the whole `try` body on success. -/
theorem scrape_core_inv (client : Client) (req : ScrapeRequest) (now : Int)
    (p : Option Profile) (posts : List Row) (m : FullMeta)
    (h : scrape_core client req now = .ok (p, posts, m)) :
    m.kept = (posts.length : Int) ∧
    (0 ≤ req.max_posts → (posts.length : Int) ≤ req.max_posts) ∧
    (0 ≤ req.max_requests →
      (m.fallback_used = false → m.requests ≤ req.max_requests) ∧
      m.requests ≤ 2 * req.max_requests) := by
  unfold scrape_core at h
  split at h
  · have inv := scrape_username_inv client req now p posts m h
    refine ⟨inv.1, inv.2.1, fun h0 => ⟨fun _ => inv.2.2.1 h0, ?_⟩⟩
    have := inv.2.2.1 h0
    omega
  · split at h
    · exact scrape_hashtag_auto_inv client req now p posts m h
    · have inv := scrape_hashtag_plain_inv client req now p posts m h
      refine ⟨inv.1, inv.2.1, fun h0 => ⟨fun _ => inv.2.2.1 h0, ?_⟩⟩
      have := inv.2.2.1 h0
      omega

/-- Invariants of a successful `scrape_instagram` run, phrased on the
returned result. -/
theorem scrape_instagram_meta_inv (client : Client) (req : ScrapeRequest)
    (now : Int) (m : FullMeta)
    (h : (scrape_instagram client req now).meta = some m) :
    m.kept = ((scrape_instagram client req now).posts.length : Int) ∧
    (0 ≤ req.max_posts →
      ((scrape_instagram client req now).posts.length : Int) ≤ req.max_posts) ∧
    (0 ≤ req.max_requests →
      (m.fallback_used = false → m.requests ≤ req.max_requests) ∧
      m.requests ≤ 2 * req.max_requests) := by
  cases hc : scrape_core client req now with
  | error e => simp only [scrape_instagram, hc] at h; cases h
  | ok tri =>
    obtain ⟨p, posts, mm⟩ := tri
    simp only [scrape_instagram, hc] at h ⊢
    cases h
    exact scrape_core_inv client req now p posts m hc

/-- On a non-username method and an auto feed, the try body runs the auto
branch. -/
theorem scrape_core_hashtag_auto (client : Client) (req : ScrapeRequest)
    (now : Int) (hm : req.method ≠ "username")
    (ha : startswith req.feed "auto" = true) :
    scrape_core client req now = scrape_hashtag_auto client req now := by
  simp [scrape_core, hm, ha]

/-- The auto branch when the top pass alone reaches the quota: its result is
the top pass's, with no fallback. -/
theorem scrape_hashtag_auto_nofb (client : Client) (req : ScrapeRequest)
    (now : Int) (tp : List Row) (tm : Meta)
    (htop : _paginate (topAdapter client req.target) { req with feed := "top" }
      now "hashtag_top" ("#" ++ req.target) = .ok (tp, tm))
    (hge : ¬ ((tp.length : Int) < req.max_posts)) :
    scrape_hashtag_auto client req now =
      .ok (none, tp, mkFullMeta tm req "top" false) := by
  simp only [scrape_hashtag_auto, htop]
  rw [if_neg hge]

/-- The auto branch when the top pass keeps too few rows: the recent pass
runs with the shortfall as its quota and the results are merged. -/
theorem scrape_hashtag_auto_fb (client : Client) (req : ScrapeRequest)
    (now : Int) (tp rp : List Row) (tm rm : Meta)
    (htop : _paginate (topAdapter client req.target) { req with feed := "top" }
      now "hashtag_top" ("#" ++ req.target) = .ok (tp, tm))
    (hlt : (tp.length : Int) < req.max_posts)
    (hrec : _paginate (recentAdapter client req.target)
      { req with feed := "recent",
                 max_posts := req.max_posts - (tp.length : Int) }
      now "hashtag_recent" ("#" ++ req.target) = .ok (rp, rm)) :
    scrape_hashtag_auto client req now =
      .ok (none, tp ++ rp,
        mkFullMeta (mergeMeta tm rm (((tp ++ rp).length : Int)))
          req "top+recent" true) := by
  simp only [scrape_hashtag_auto, htop]
  rw [if_pos hlt]
  simp only [hrec]

/-- With a non-positive quota or budget, the try body of any hashtag-method
request issues no fetch and produces an empty normal result depending only
on the request. -/
theorem scrape_core_zero_quota (client : Client) (req : ScrapeRequest)
    (now : Int) (hq : req.max_posts ≤ 0 ∨ req.max_requests ≤ 0)
    (hm : req.method ≠ "username")
    (hf : req.feed = "top" ∨ req.feed = "recent" ∨ req.feed = "clips" ∨
          startswith req.feed "auto" = true) :
    scrape_core client req now =
      (if startswith req.feed "auto" = true then
        (if 0 < req.max_posts then
          .ok (none, [],
            mkFullMeta
              (mergeMeta { endpoint := none, cursor := none, fetched := 0,
                           kept := 0, requests := 0 }
                         { endpoint := none, cursor := none, fetched := 0,
                           kept := 0, requests := 0 } 0)
              req "top+recent" true)
        else .ok (none, [],
          mkFullMeta { endpoint := none, cursor := none, fetched := 0,
                       kept := 0, requests := 0 } req "top" false))
      else .ok (none, [],
        mkFullMeta { endpoint := none, cursor := none, fetched := 0,
                     kept := 0, requests := 0 } req req.feed false)) := by
  by_cases ha : startswith req.feed "auto" = true
  · rw [scrape_core_hashtag_auto client req now hm ha, if_pos ha]
    have htop := paginate_zero_quota (topAdapter client req.target)
      { req with feed := "top" } now "hashtag_top" ("#" ++ req.target) hq
    by_cases hmp : 0 < req.max_posts
    · rw [if_pos hmp]
      have hmr : req.max_requests ≤ 0 := by
        rcases hq with h | h
        · omega
        · exact h
      have hrec := paginate_zero_quota (recentAdapter client req.target)
        { req with feed := "recent",
                   max_posts := req.max_posts - ((([] : List Row).length : Int)) }
        now "hashtag_recent" ("#" ++ req.target) (Or.inr hmr)
      have hfb := scrape_hashtag_auto_fb client req now [] [] _ _ htop
        (by simpa using hmp) hrec
      simpa using hfb
    · rw [if_neg hmp]
      have hnofb := scrape_hashtag_auto_nofb client req now [] _ htop
        (by simpa using hmp)
      exact hnofb
  · rw [if_neg ha]
    have hfeed : req.feed = "top" ∨ req.feed = "recent" ∨ req.feed = "clips" := by
      rcases hf with h | h | h | h
      · exact Or.inl h
      · exact Or.inr (Or.inl h)
      · exact Or.inr (Or.inr h)
      · exact absurd h ha
    have hcore : scrape_core client req now = scrape_hashtag_plain client req now := by
      simp [scrape_core, hm, ha]
    rw [hcore]
    rcases hfeed with h | h | h
    · have := paginate_zero_quota (topAdapter client req.target) req now
        "hashtag_top" ("#" ++ req.target) hq
      simp [scrape_hashtag_plain, fetch_hashtag, h, this]
    · have := paginate_zero_quota (recentAdapter client req.target) req now
        "hashtag_recent" ("#" ++ req.target) hq
      simp [scrape_hashtag_plain, fetch_hashtag, h, this]
    · have := paginate_zero_quota (clipsAdapter client req.target) req now
        "hashtag_clips" ("#" ++ req.target) hq
      simp [scrape_hashtag_plain, fetch_hashtag, h, this]

/-- The engagement-floor tail of `_passes` holds exactly when all three
floors are met on the resolved counters. -/
theorem passesFloors_iff (item : RawItem) (req : ScrapeRequest) :
    _passesFloors item req = true ↔
      (req.min_plays ≤ _plays item ∧ req.min_likes ≤ _like_count item ∧
       req.min_comments ≤ _comment_count item) := by
  unfold _passesFloors
  by_cases h1 : _plays item < req.min_plays
  · simp [h1] <;> omega
  · by_cases h2 : _like_count item < req.min_likes
    · simp [h1, h2] <;> omega
    · by_cases h3 : _comment_count item < req.min_comments
      · simp [h1, h2, h3] <;> omega
      · simp [h1, h2, h3] <;> omega

/-- Full characterization of `_passes`: recency (undated items pass exactly
when `include_unknown_dates` is set, dated ones exactly when at or past the
cutoff) AND the three engagement floors. -/
theorem passes_iff (item : RawItem) (req : ScrapeRequest) (cutoff_ts : Int) :
    _passes item req cutoff_ts = true ↔
      ((match _ts item with
        | none => req.include_unknown_dates = true
        | some ts => cutoff_ts ≤ ts) ∧
       (req.min_plays ≤ _plays item ∧ req.min_likes ≤ _like_count item ∧
        req.min_comments ≤ _comment_count item)) := by
  unfold _passes
  cases hts : _ts item with
  | none =>
    by_cases hinc : req.include_unknown_dates
    · simp [hinc, passesFloors_iff]
    · simp [hinc]
  | some ts =>
    by_cases hc : ts < cutoff_ts
    · simp [hc, passesFloors_iff] <;> omega
    · simp [hc, passesFloors_iff] <;> omega

end InstaScraper

namespace Tiktok

/-- Full characterization of `_passes_filters`: a defaulted-to-zero
`createTime` at or past the cutoff AND the three engagement floors on
defaulted stats counters. -/
theorem passes_filters_iff (item : TItem) (cutoff_ts : Int) (f : Filters) :
    _passes_filters item cutoff_ts f = true ↔
      (cutoff_ts ≤ item.createTime.getD 0 ∧
       f.min_views ≤ (item.stats.getD {}).playCount.getD 0 ∧
       f.min_likes ≤ (item.stats.getD {}).diggCount.getD 0 ∧
       f.min_comments ≤ (item.stats.getD {}).commentCount.getD 0) := by
  unfold _passes_filters
  by_cases h0 : item.createTime.getD 0 < cutoff_ts
  · simp [h0] <;> omega
  · by_cases h1 : (item.stats.getD {}).playCount.getD 0 < f.min_views
    · simp [h0, h1] <;> omega
    · by_cases h2 : (item.stats.getD {}).diggCount.getD 0 < f.min_likes
      · simp [h0, h1, h2] <;> omega
      · by_cases h3 : (item.stats.getD {}).commentCount.getD 0 < f.min_comments
        · simp [h0, h1, h2, h3] <;> omega
        · simp [h0, h1, h2, h3] <;> omega

/-- On the provider that keeps answering empty pages with `hasMore` set,
the TikTok paging loop makes no progress at any fuel. -/
theorem tiktok_go_stubborn_none (hashtag : String) (cutoff_ts : Int)
    (f : Filters) (limit : Int) :
    ∀ (fuel : Nat) (st : TikState),
      tiktok_go stubbornProvider hashtag cutoff_ts f limit fuel st = none := by
  intro fuel
  induction fuel with
  | zero => intro st; rfl
  | succ n ih =>
    intro st
    simp only [tiktok_go, stubbornProvider, consume_page]
    exact ih _

end Tiktok

/-! ## Claims -/

namespace InstaScraper

/-- C1 (counterexample): `autoReq` is a valid request (`max_items ≥ 1`,
`max_requests ≥ 1`), yet against a provider whose hashtag pages are empty
the auto feed's run reports `meta.requests = 2 > max_requests = 1`: the
fallback pass gets a fresh budget, so the summed counter exceeds the cap. -/
theorem quota_bound_counterexample :
    (1 : Int) ≤ autoReq.max_posts ∧ (1 : Int) ≤ autoReq.max_requests ∧
    ((scrape_instagram (constClient (.ok emptyPage)) autoReq 0).meta.map
      FullMeta.requests) = some 2 ∧
    ¬ ((2 : Int) ≤ autoReq.max_requests) := by
  refine ⟨by decide, by decide, ?_, by decide⟩
  decide

/-- C1 (amended): for every valid request (`max_items ≥ 1`,
`max_requests ≥ 1`) and every provider, a successful run keeps at most
`max_items` rows; `meta.requests ≤ max_requests` holds whenever the
fallback was not used, and on the composite auto feed's fallback path each
pass separately respects the budget, so the summed counter is at most
`2 * max_requests`. -/
theorem quota_bound_amended (client : Client) (req : ScrapeRequest)
    (now : Int) (m : FullMeta)
    (h1 : 1 ≤ req.max_posts) (h2 : 1 ≤ req.max_requests)
    (h : (scrape_instagram client req now).meta = some m) :
    ((scrape_instagram client req now).posts.length : Int) ≤ req.max_posts ∧
    (m.fallback_used = false → m.requests ≤ req.max_requests) ∧
    m.requests ≤ 2 * req.max_requests := by
  have inv := scrape_instagram_meta_inv client req now m h
  exact ⟨inv.2.1 (by omega), (inv.2.2 (by omega)).1, (inv.2.2 (by omega)).2⟩

/-- C1 (witness): the amended bound instantiated on the empty-page client
and `autoReq`. -/
theorem quota_bound_amended_witness :
    ((scrape_instagram (constClient (.ok emptyPage)) autoReq 0).posts.length : Int) ≤
      autoReq.max_posts ∧
    autoMetaEx.requests ≤ 2 * autoReq.max_requests := by
  have h := quota_bound_amended (constClient (.ok emptyPage)) autoReq 0
    autoMetaEx (by decide) (by decide) (by decide)
  exact ⟨h.1, h.2.2⟩

/-- C10: for every successful pipeline run the returned meta's `kept`
counter equals the length of the returned row list. -/
theorem meta_kept_matches_rows (client : Client) (req : ScrapeRequest)
    (now : Int) (m : FullMeta)
    (h : (scrape_instagram client req now).meta = some m) :
    m.kept = ((scrape_instagram client req now).posts.length : Int) :=
  (scrape_instagram_meta_inv client req now m h).1

/-- C10 (witness): `kept` matches the row count on a concrete two-item page
where one item is malformed. -/
theorem meta_kept_matches_rows_witness :
    topMetaEx.kept =
      ((scrape_instagram (constClient (.ok (pageOf [goodItem, badCodeItem] none)))
        topReq 0).posts.length : Int) :=
  meta_kept_matches_rows (constClient (.ok (pageOf [goodItem, badCodeItem] none)))
    topReq 0 topMetaEx rfl

/-- C6 (counterexample): a request whose kept-row quota is zero is not
rejected: the run returns a normal result (`error` absent, `meta` present),
not an error. -/
theorem zero_quota_counterexample :
    zeroQuotaReq.max_posts = 0 ∧
    (scrape_instagram (constClient (.ok emptyPage)) zeroQuotaReq 0).error = none ∧
    ((scrape_instagram (constClient (.ok emptyPage)) zeroQuotaReq 0).meta).isSome
      = true := by
  refine ⟨by decide, rfl, rfl⟩

/-- C6 (amended): the pipeline performs no validation of the quotas.  A
hashtag-method request with a non-positive `max_items` or `max_requests`
issues zero page fetches (the result is identical for every provider and
every clock) and returns a normal empty result — zero rows, zero reported
requests and no error — instead of an `InvalidRequest` error. -/
theorem zero_quota_normal_result (client client' : Client) (req : ScrapeRequest)
    (now now' : Int)
    (hq : req.max_posts ≤ 0 ∨ req.max_requests ≤ 0)
    (hm : req.method ≠ "username")
    (hf : req.feed = "top" ∨ req.feed = "recent" ∨ req.feed = "clips" ∨
          startswith req.feed "auto" = true) :
    (scrape_instagram client req now).error = none ∧
    (scrape_instagram client req now).posts = [] ∧
    ((scrape_instagram client req now).meta.map FullMeta.requests) = some 0 ∧
    scrape_instagram client req now = scrape_instagram client' req now' := by
  have hc := scrape_core_zero_quota client req now hq hm hf
  have hc' := scrape_core_zero_quota client' req now' hq hm hf
  by_cases ha : startswith req.feed "auto" = true
  · rw [if_pos ha] at hc hc'
    by_cases hmp : 0 < req.max_posts
    · rw [if_pos hmp] at hc hc'
      refine ⟨?_, ?_, ?_, ?_⟩ <;>
        simp [scrape_instagram, hc, hc', mkFullMeta, mergeMeta]
    · rw [if_neg hmp] at hc hc'
      refine ⟨?_, ?_, ?_, ?_⟩ <;>
        simp [scrape_instagram, hc, hc', mkFullMeta]
  · rw [if_neg ha] at hc hc'
    refine ⟨?_, ?_, ?_, ?_⟩ <;>
      simp [scrape_instagram, hc, hc', mkFullMeta]

/-- C6 (witness): the zero-quota behavior instantiated on `zeroQuotaReq`
against two very different providers and clocks. -/
theorem zero_quota_normal_result_witness :
    (scrape_instagram (constClient (.ok emptyPage)) zeroQuotaReq 0).error = none ∧
    scrape_instagram (constClient (.ok emptyPage)) zeroQuotaReq 0 =
      scrape_instagram (constClient (.error "down")) zeroQuotaReq 99 := by
  have h := zero_quota_normal_result (constClient (.ok emptyPage))
    (constClient (.error "down")) zeroQuotaReq 0 99
    (Or.inl (by decide)) (by decide) (Or.inl rfl)
  exact ⟨h.1, h.2.2.2⟩

/-- C7: whenever any step of a single-target run raises (adapter fetch,
identifier resolution, or an unsupported feed), the run returns the single
structured error result: empty rows, no meta, the failure message, and a
trace attached exactly when the request's debug flag is set. -/
theorem error_result_structure (client : Client) (req : ScrapeRequest)
    (now : Int) (e : String)
    (h : scrape_core client req now = .error e) :
    scrape_instagram client req now =
      { profile_info := none, posts := [], meta := none, error := some e,
        debug := if req.debug then some (formatTraceback e) else none } ∧
    ((scrape_instagram client req now).debug.isSome ↔ req.debug = true) := by
  have h1 : scrape_instagram client req now =
      { profile_info := none, posts := [], meta := none, error := some e,
        debug := if req.debug then some (formatTraceback e) else none } := by
    simp only [scrape_instagram, h]
  refine ⟨h1, ?_⟩
  rw [h1]
  by_cases hd : req.debug <;> simp [hd]

/-- C7 (witness): a failing top-feed fetch surfaces as the structured error
result with no rows and (debug flag unset) no trace. -/
theorem error_result_structure_witness :
    scrape_instagram (constClient (.error "boom")) topReq 0 =
      { profile_info := none, posts := [], meta := none, error := some "boom",
        debug := none } := by
  have h := error_result_structure (constClient (.error "boom")) topReq 0
    "boom" rfl
  exact h.1

end InstaScraper

namespace InstaScraper

/-- C2 (amended): the Instagram paginator's loop ends after the page just
processed — regardless of how much request budget remains — whenever the
response carries no (or an empty) continuation cursor or the page held zero
raw items. -/
theorem paginator_stops_on_exhausted_page (fetch_fn : Fetch)
    (req : ScrapeRequest) (c : Int) (s d : String) (st : PgState) (fuel : Nat)
    (resp : Resp) (ep : String)
    (hg : st.kept < req.max_posts ∧ st.requests < req.max_requests)
    (hf : fetch_fn st.cursor = .ok (resp, ep))
    (hstop : cursorFalsy (_cursor resp) = true ∨ _flatten_items resp = []) :
    _paginate_go fetch_fn req c s d (fuel + 1) st =
      .ok (_page_step req c s d st resp ep) := by
  simp only [_paginate_go, hf]
  rw [if_pos hg]
  rcases hstop with h | h
  · rw [if_pos (Or.inl (show cursorFalsy
      (_page_step req c s d st resp ep).cursor = true from h))]
  · rw [if_pos (Or.inr (by simp [h]))]

/-- C2 (witness): one empty page with no cursor ends the loop at once even
with fuel left. -/
theorem paginator_stops_on_exhausted_page_witness :
    _paginate_go (topAdapter (constClient (.ok emptyPage)) "dog") topReq (-100)
      "hashtag_top" "#dog" 1 pgInit =
      .ok (_page_step topReq (-100) "hashtag_top" "#dog" pgInit emptyPage
        "hashtag_medias_top_chunk_v1") :=
  paginator_stops_on_exhausted_page
    (topAdapter (constClient (.ok emptyPage)) "dog") topReq (-100)
    "hashtag_top" "#dog" pgInit 0 emptyPage "hashtag_medias_top_chunk_v1"
    (by decide) rfl (Or.inl rfl)

/-- C8: an item lacking a usable string content identifier never becomes a
row and leaves the kept counter and row list untouched while processing
continues with the rest of the page; every raw item of a page, malformed or
not, is counted into the fetched counter. -/
theorem malformed_item_silent_skip (req : ScrapeRequest) (c : Int)
    (s d : String) (it : RawItem) (rest : List RawItem) (kept : Int)
    (rows : List Row)
    (hbad : it.code = none ∨ it.code = some "") (hlt : kept < req.max_posts) :
    _page_keep req c s d kept rows (it :: rest) =
      _page_keep req c s d kept rows rest ∧
    ∀ (st : PgState) (resp : Resp) (ep : String),
      (_page_step req c s d st resp ep).fetched =
        st.fetched + ((_flatten_items resp).length : Int) := by
  constructor
  · have hrow : _row it s d = none := by
      rcases hbad with h | h <;> simp [_row, h]
    simp only [_page_keep]
    rw [if_neg (show ¬ kept ≥ req.max_posts by omega)]
    by_cases hp : _passes it req c
    · simp [hp, hrow]
    · simp [hp]
  · intro st resp ep
    rfl

/-- C8 (witness): skipping the identifier-less `badCodeItem` leaves the page
processing exactly where processing the remaining items alone would. -/
theorem malformed_item_silent_skip_witness :
    _page_keep topReq 0 "hashtag_top" "#dog" 0 [] [badCodeItem, goodItem] =
      _page_keep topReq 0 "hashtag_top" "#dog" 0 [] [goodItem] :=
  (malformed_item_silent_skip topReq 0 "hashtag_top" "#dog" badCodeItem
    [goodItem] 0 [] (Or.inl rfl) (by decide)).1

/-- C9: the filter is monotone in its thresholds — raising any engagement
floor, raising the cutoff timestamp, or disabling `include_unknown_dates`
never turns a failing item into a passing one, so over the same fetched
data the count of passing items never increases under tightening. -/
theorem filter_monotone (req req' : ScrapeRequest) (cutoff cutoff' : Int)
    (hp : req.min_plays ≤ req'.min_plays)
    (hl : req.min_likes ≤ req'.min_likes)
    (hc : req.min_comments ≤ req'.min_comments)
    (hcut : cutoff ≤ cutoff')
    (hinc : req'.include_unknown_dates = true →
      req.include_unknown_dates = true) :
    (∀ item : RawItem,
      _passes item req' cutoff' = true → _passes item req cutoff = true) ∧
    (∀ l : List RawItem,
      l.countP (fun it => _passes it req' cutoff') ≤
        l.countP (fun it => _passes it req cutoff)) := by
  have hpt : ∀ item : RawItem,
      _passes item req' cutoff' = true → _passes item req cutoff = true := by
    intro item h
    rw [passes_iff] at h ⊢
    obtain ⟨hr, h1, h2, h3⟩ := h
    refine ⟨?_, by omega, by omega, by omega⟩
    cases hts : _ts item with
    | none =>
      simp only [hts] at hr ⊢
      exact hinc hr
    | some ts =>
      simp only [hts] at hr ⊢
      omega
  refine ⟨hpt, ?_⟩
  intro l
  induction l with
  | nil => simp
  | cons x xs ih =>
    simp only [List.countP_cons]
    by_cases hx : _passes x req' cutoff' = true
    · rw [if_pos hx, if_pos (hpt x hx)]
      omega
    · rw [if_neg hx]
      by_cases hy : _passes x req cutoff = true
      · rw [if_pos hy]; omega
      · rw [if_neg hy]; omega

/-- C9 (witness): raising the likes floor cannot increase the number of
passing items on a concrete one-item page. -/
theorem filter_monotone_witness :
    ([goodItem].countP (fun it => _passes it topReqTight 0)) ≤
      ([goodItem].countP (fun it => _passes it topReq 0)) :=
  (filter_monotone topReq topReqTight 0 0 (by decide) (by decide) (by decide)
    (by omega) (fun h => h)).2 [goodItem]

end InstaScraper

/-- C2 (counterexample): the TikTok hashtag pagination loop is NOT immune —
against a provider that keeps answering empty pages with `hasMore` set and a
live cursor, `fetch_hashtag_medias`'s loop never delivers a result at any
finite fuel, i.e. the Python loop runs forever. -/
theorem tiktok_pagination_diverges :
    ¬ Tiktok.tiktok_terminates Tiktok.stubbornProvider "dance" 0
      Tiktok.permissiveFilters 5 := by
  rintro ⟨fuel, hf⟩
  simp [Tiktok.tiktok_go_stubborn_none] at hf

/-- C5 (counterexample): the TikTok pipeline has no `include_undated`
option: an item with no resolvable timestamp (no `createTime`) meeting
every (zero) engagement floor is rejected outright by `_passes_filters`
once the cutoff is positive, because the missing timestamp defaults to 0. -/
theorem undated_policy_counterexample :
    Tiktok._passes_filters Tiktok.undatedTItem 100 Tiktok.permissiveFilters
      = false ∧
    Tiktok.undatedTItem.createTime = none ∧
    Tiktok.permissiveFilters.min_views = 0 ∧
    Tiktok.permissiveFilters.min_likes = 0 ∧
    Tiktok.permissiveFilters.min_comments = 0 := by
  decide

/-- C5 (amended): in the Instagram pipeline the stated policy holds exactly:
an undated item passes iff `include_unknown_dates` is set, a dated one iff
its timestamp is at least the cutoff, and the three engagement floors apply
independently on resolved counters (absent counters resolve to zero, so a
zero floor is met by every item whose resolved counters are non-negative).
In the TikTok pipeline the floors likewise apply independently, but there is
no undated-inclusion flag: a missing timestamp is treated as 0 and compared
to the cutoff. -/
theorem filter_policy_characterization :
    (∀ (item : InstaScraper.RawItem) (req : InstaScraper.ScrapeRequest)
        (cutoff_ts : Int),
      InstaScraper._passes item req cutoff_ts = true ↔
        ((match InstaScraper._ts item with
          | none => req.include_unknown_dates = true
          | some ts => cutoff_ts ≤ ts) ∧
         (req.min_plays ≤ InstaScraper._plays item ∧
          req.min_likes ≤ InstaScraper._like_count item ∧
          req.min_comments ≤ InstaScraper._comment_count item))) ∧
    (∀ (item : Tiktok.TItem) (cutoff_ts : Int) (f : Tiktok.Filters),
      Tiktok._passes_filters item cutoff_ts f = true ↔
        (cutoff_ts ≤ item.createTime.getD 0 ∧
         f.min_views ≤ (item.stats.getD {}).playCount.getD 0 ∧
         f.min_likes ≤ (item.stats.getD {}).diggCount.getD 0 ∧
         f.min_comments ≤ (item.stats.getD {}).commentCount.getD 0)) :=
  ⟨InstaScraper.passes_iff, Tiktok.passes_filters_iff⟩

/-- C5 (witness): the Instagram characterization applied to a concrete
dated item passing permissive thresholds. -/
theorem filter_policy_characterization_witness :
    InstaScraper._passes InstaScraper.goodItem InstaScraper.topReq 0 = true :=
  (filter_policy_characterization.1 InstaScraper.goodItem InstaScraper.topReq
    0).mpr ⟨show (0 : Int) ≤ 1000 by decide,
      by decide, by decide, by decide⟩

namespace InstaScraper

/-- C3: on the hashtag auto feed, whenever the top pass keeps fewer than
`max_posts` rows, the recent pass runs with the derived request whose
`max_posts` is exactly the shortfall (feed switched to `"recent"`, every
other field unchanged); the run returns the top rows followed by the recent
rows, a meta whose `fetched` and `requests` are the sums of the two passes'
counters, and whose cursor is the recent pass's if present, else the top
pass's. -/
theorem auto_fallback_shortfall (client : Client) (req : ScrapeRequest)
    (now : Int) (tp rp : List Row) (tm rm : Meta)
    (hm : req.method ≠ "username") (ha : startswith req.feed "auto" = true)
    (htop : _paginate (topAdapter client req.target) { req with feed := "top" }
      now "hashtag_top" ("#" ++ req.target) = .ok (tp, tm))
    (hlt : (tp.length : Int) < req.max_posts)
    (hrec : _paginate (recentAdapter client req.target)
      { req with feed := "recent",
                 max_posts := req.max_posts - (tp.length : Int) }
      now "hashtag_recent" ("#" ++ req.target) = .ok (rp, rm)) :
    scrape_instagram client req now =
      { profile_info := none
        posts := tp ++ rp
        meta := some
          { endpoint := some (fmtOpt tm.endpoint ++ " + " ++ fmtOpt rm.endpoint)
            cursor := pyOrCursor rm.cursor tm.cursor
            fetched := tm.fetched + rm.fetched
            kept := ((tp ++ rp).length : Int)
            requests := tm.requests + rm.requests
            requested := req.max_posts
            method := req.method
            target := req.target
            effective_feed := "top+recent"
            fallback_used := true }
        error := none
        debug := none } := by
  have hc : scrape_core client req now = .ok (none, tp ++ rp,
      mkFullMeta (mergeMeta tm rm (((tp ++ rp).length : Int)))
        req "top+recent" true) := by
    rw [scrape_core_hashtag_auto client req now hm ha]
    exact scrape_hashtag_auto_fb client req now tp rp tm rm htop hlt hrec
  simp only [scrape_instagram, hc]
  rfl

/-- C3 (witness): the fallback merge on an always-empty provider — both
passes issue one request each, the merged meta sums them. -/
theorem auto_fallback_shortfall_witness :
    scrape_instagram (constClient (.ok emptyPage)) autoReq 0 =
      { profile_info := none, posts := [], meta := some autoMetaEx,
        error := none, debug := none } := by
  have h := auto_fallback_shortfall (constClient (.ok emptyPage)) autoReq 0
    [] [] (emptyPassMeta "hashtag_medias_top_chunk_v1")
    (emptyPassMeta "hashtag_medias_top_recent_chunk_v1")
    (by decide) (by decide) rfl (by decide) rfl
  exact h

/-- C4: on the hashtag auto feed, if the top pass alone keeps at least
`max_posts` rows, the run returns exactly the top pass's rows and meta with
`fallback_used = false`, and the result is unchanged under replacing the
recent-feed adapter by anything at all — the secondary adapter receives
zero calls. -/
theorem fallback_short_circuit (client : Client) (req : ScrapeRequest)
    (now : Int) (tp : List Row) (tm : Meta)
    (g : String → Option String → Except String Resp)
    (hm : req.method ≠ "username") (ha : startswith req.feed "auto" = true)
    (htop : _paginate (topAdapter client req.target) { req with feed := "top" }
      now "hashtag_top" ("#" ++ req.target) = .ok (tp, tm))
    (hge : ¬ ((tp.length : Int) < req.max_posts)) :
    scrape_instagram client req now =
      { profile_info := none, posts := tp,
        meta := some (mkFullMeta tm req "top" false), error := none,
        debug := none } ∧
    scrape_instagram
        { client with hashtag_medias_top_recent_chunk_v1 := g } req now =
      scrape_instagram client req now := by
  have hc : scrape_core client req now =
      .ok (none, tp, mkFullMeta tm req "top" false) := by
    rw [scrape_core_hashtag_auto client req now hm ha]
    exact scrape_hashtag_auto_nofb client req now tp tm htop hge
  have hc' : scrape_core
      { client with hashtag_medias_top_recent_chunk_v1 := g } req now =
      .ok (none, tp, mkFullMeta tm req "top" false) := by
    rw [scrape_core_hashtag_auto _ req now hm ha]
    exact scrape_hashtag_auto_nofb _ req now tp tm htop hge
  constructor
  · simp only [scrape_instagram, hc]
  · simp only [scrape_instagram, hc, hc']

/-- C4 (witness): one full page satisfies the quota, the recent adapter is
swapped for an always-failing one without changing the result. -/
theorem fallback_short_circuit_witness :
    scrape_instagram (constClient (.ok (pageOf [goodItem] none)))
        autoSmallReq 0 =
      { profile_info := none, posts := [goodRowTop],
        meta := some (mkFullMeta onePassMeta autoSmallReq "top" false),
        error := none, debug := none } ∧
    scrape_instagram
        { constClient (.ok (pageOf [goodItem] none)) with
            hashtag_medias_top_recent_chunk_v1 := fun _ _ => .error "never" }
        autoSmallReq 0 =
      scrape_instagram (constClient (.ok (pageOf [goodItem] none)))
        autoSmallReq 0 :=
  fallback_short_circuit (constClient (.ok (pageOf [goodItem] none)))
    autoSmallReq 0 [goodRowTop] onePassMeta (fun _ _ => .error "never")
    (by decide) (by decide) rfl (by decide)

end InstaScraper
